import Mathlib

/-
Verification of the voice-command capture-and-dispatch subsystem of the
mobile inventory client, as implemented by the Voice screen
(frontend/app/voice.tsx). The component state and the four handlers
(cleanupAudio, startRecording, stopRecording, uploadAudio) are embedded as
pure functions over an explicit World state; outcomes of hardware and
network calls (stopAndUnloadAsync, Audio.Recording.createAsync, fetch) are
passed as explicit parameters. The upload handler is split at its fetch
suspension point into a synchronous prefix and a continuation, so that the
single-threaded cooperative event loop of the app is modelled as a
reachability relation over press, release and fetch-arrival events.
-/

/-- Structured intent decision as stored in the decision state variable of
the Voice screen: the four fields set together in the success branch of
uploadAudio. -/
structure IntentDecision where
  intent : String
  item : String
  qty : Int
  unit : String
deriving DecidableEq, Repr

/-- Parsed JSON body of a response from POST /process-voice. An absent
field and a null field are both modelled as none, since the code treats
them identically. -/
structure Body where
  transcription : Option String
  response : Option String
  intent : Option String
  item : Option String
  qty : Option Int
  unit : Option String
  error : Option String
deriving DecidableEq, Repr

/-- Value of an optional string, defaulting to the empty string. -/
def orEmpty : Option String → String
  | none => ""
  | some s => s

/-- JavaScript truthiness of an optional string: absent, null and the
empty string are falsy. -/
def truthyS : Option String → Bool
  | none => false
  | some s => !(s == "")

/-- JavaScript truthiness of an optional number: absent, null and zero are
falsy. -/
def truthyN : Option Int → Bool
  | none => false
  | some n => !(n == 0)

/-- Component state of the Voice screen (the six useState hooks) together
with instrumentation of the external effects: micHeld says whether a
capture handle is currently open on the hardware, nextHandle numbers the
handles produced by Audio.Recording.createAsync, pendingUploads counts
fetch requests issued and not yet resolved, and fetchCount counts all
fetch requests ever issued. -/
structure World where
  recording : Option Nat
  isRecording : Bool
  isProcessing : Bool
  aiResponse : String
  transcription : String
  decision : Option IntentDecision
  micHeld : Bool
  nextHandle : Nat
  pendingUploads : Nat
  fetchCount : Nat
deriving DecidableEq, Repr

/-- Initial state of the Voice screen, from the useState initialisers. -/
def initWorld : World :=
  { recording := none
    isRecording := false
    isProcessing := false
    aiResponse := "Hold the Button..."
    transcription := "Ask about stock or sales"
    decision := none
    micHeld := false
    nextHandle := 0
    pendingUploads := 0
    fetchCount := 0 }

/-- The cleanupAudio helper. stopOk is the outcome of the awaited
stopAndUnloadAsync call; when it throws, the setRecording(null) that
follows the await is skipped and the catch merely logs, so the state is
unchanged. setAudioModeAsync touches no modelled state. -/
def cleanupAudio (stopOk : Bool) (w : World) : World :=
  match w.recording with
  | none => w
  | some _ =>
    if stopOk then { w with recording := none, micHeld := false }
    else w

/-- The startRecording handler. Its only guard is isProcessing. cleanOk is
the outcome of the stop call made inside cleanupAudio, createOk the
outcome of Audio.Recording.createAsync. On create failure the catch clears
isRecording and shows the generic mic-error text. -/
def startRecording (cleanOk createOk : Bool) (w : World) : World :=
  if w.isProcessing then w
  else
    let w1 := cleanupAudio cleanOk w
    let w2 := { w1 with
      isRecording := true
      aiResponse := "Listening..."
      decision := none }
    if createOk then
      { w2 with
        recording := some w2.nextHandle
        nextHandle := w2.nextHandle + 1
        micHeld := true }
    else
      { w2 with isRecording := false, aiResponse := "❌ Mic Error. Try again." }

/-- Synchronous prefix of the uploadAudio handler, up to and including the
issue of the fetch request: the falsy-uri early return, then
setIsProcessing, setAiResponse, setDecision and the POST. -/
def uploadAudioStart (uri : Option String) (w : World) : World :=
  if truthyS uri then
    { w with
      isProcessing := true
      aiResponse := "Processing..."
      decision := none
      pendingUploads := w.pendingUploads + 1
      fetchCount := w.fetchCount + 1 }
  else w

/-- Result of an awaited fetch: netFail when the request itself rejects;
otherwise resp carries the ok flag and the parsed JSON body, with none
standing for a body on which response.json() throws. Since the code awaits
response.json() before testing ok, an unparsable body reaches the catch
branch for both ok and non-ok responses. -/
inductive FetchResult
  | netFail
  | resp (ok : Bool) (body : Option Body)
deriving DecidableEq, Repr

/-- Continuation of the uploadAudio handler after the fetch resolves: the
ok branch with its truthiness checks on transcription, response and the
four decision fields, the non-ok branch with its prefixed error text, the
catch branch for network or parse failure, and the finally clause that
resets isProcessing. -/
def uploadAudioFinish (r : FetchResult) (w : World) : World :=
  let w1 :=
    match r with
    | .netFail => { w with aiResponse := "❌ Could not connect to server." }
    | .resp _ none => { w with aiResponse := "❌ Could not connect to server." }
    | .resp true (some b) =>
      let w2 := { w with
        transcription :=
          match b.transcription with
          | some t => if t == "" then "—" else "\"" ++ t ++ "\""
          | none => "—"
        aiResponse :=
          match b.response with
          | some s => if s == "" then "No response" else s
          | none => "No response" }
      if truthyS b.intent && truthyS b.item && truthyN b.qty && truthyS b.unit then
        let d : IntentDecision :=
          { intent := orEmpty b.intent
            item := orEmpty b.item
            qty := b.qty.getD 0
            unit := orEmpty b.unit }
        { w2 with decision := some d }
      else w2
    | .resp false (some b) =>
      { w with aiResponse := "❌ Error: " ++
        (match b.error with
         | some e => if e == "" then "Unknown error" else e
         | none => "Unknown error") }
  { w1 with isProcessing := false, pendingUploads := w1.pendingUploads - 1 }

/-- The stopRecording handler. stopOk is the outcome of the awaited
stopAndUnloadAsync call and uri is what getURI returns (null modelled as
none). On success the handle is cleared and uploadAudio is invoked with
the artifact uri, running to its fetch suspension point; on a throw the
catch clears the handle and no upload is attempted. -/
def stopRecording (stopOk : Bool) (uri : Option String) (w : World) : World :=
  match w.recording with
  | none => w
  | some _ =>
    let w1 := { w with isRecording := false }
    if stopOk then
      uploadAudioStart uri { w1 with recording := none, micHeld := false }
    else
      { w1 with recording := none }

/-- Value of the recording state variable captured by the closure of the
mount effect. The effect has an empty dependency list, so the closure is
the one from the first render, where recording is the useState initial
value null. -/
def mountCapturedRecording : Option Nat := none

/-- The unmount cleanup returned by the mount effect: when the captured
recording value is non-null it calls stopAndUnloadAsync on it (stopOk its
outcome); no setState call is made. -/
def unmountCleanup (captured : Option Nat) (stopOk : Bool) (w : World) : World :=
  match captured with
  | none => w
  | some _ => if stopOk then { w with micHeld := false } else w

/-- Text of the alert shown once at mount when requestPermissionsAsync
does not return granted. -/
def permissionNotice : String := "Please allow microphone access."

/-- Events of interest during one run of stopRecording, in program
order. -/
inductive Act
  | stopDone
  | stopFailed
  | uploadIssued
deriving DecidableEq, Repr

/-- Trace of hardware-stop and upload-issue events produced by one call of
stopRecording, in the order the handler performs them: the stop call is
awaited first, and uploadAudio issues its request only afterwards and only
when the uri is truthy. -/
def stopTrace (stopOk : Bool) (uri : Option String) (w : World) : List Act :=
  match w.recording with
  | none => []
  | some _ =>
    if stopOk then Act.stopDone :: (if truthyS uri then [Act.uploadIssued] else [])
    else [Act.stopFailed]

/-- Checks that every uploadIssued event in a trace is preceded by a
stopDone event; the flag records whether a stopDone has been seen. -/
def uploadsAfterStop : Bool → List Act → Bool
  | _, [] => true
  | _, Act.stopDone :: rest => uploadsAfterStop true rest
  | seen, Act.stopFailed :: rest => uploadsAfterStop seen rest
  | seen, Act.uploadIssued :: rest => seen && uploadsAfterStop seen rest

/-- States of the Voice screen reachable through its event loop: the
initial render, press gestures, release gestures, and the arrival of a
fetch result, which is only possible while a fetch is pending. -/
inductive Reachable : World → Prop
  | init : Reachable initWorld
  | press (c k : Bool) {w : World} : Reachable w → Reachable (startRecording c k w)
  | release (s : Bool) (u : Option String) {w : World} :
      Reachable w → Reachable (stopRecording s u w)
  | arrive (r : FetchResult) {w : World} :
      Reachable w → 1 ≤ w.pendingUploads → Reachable (uploadAudioFinish r w)

/-- Structural invariant of the event loop: the number of pending fetches
is one exactly while isProcessing is set, and while isProcessing is set
the recording handle is clear. -/
def LoopInv (w : World) : Prop :=
  w.pendingUploads = (if w.isProcessing then 1 else 0) ∧
  (w.isProcessing = true → w.recording = none)

/-- A state that is already Recording: one successful press from the
initial state. -/
def recordingWorld : World := startRecording true true initWorld

/-- Artifact uris used in concrete scenarios. -/
def uriA : String := "file:///a.wav"

/-- A second artifact uri, distinct from uriA. -/
def uriB : String := "file:///b.wav"

/-- A state with an upload in flight: a successful press and release from
the initial state. -/
def processingWorld : World := stopRecording true (some uriA) recordingWorld

/-- Success body in which all four decision fields are present and
non-null but the quantity is zero. -/
def bodyQtyZero : Body :=
  { transcription := some ("add zero rice")
    response := some ("ok")
    intent := some ("ADD")
    item := some ("Rice")
    qty := some 0
    unit := some ("kg")
    error := none }

/-- Fully populated success body. -/
def bodyFull : Body :=
  { transcription := some ("add five kg rice")
    response := some ("Added 5 kg Rice")
    intent := some ("ADD")
    item := some ("Rice")
    qty := some 5
    unit := some ("kg")
    error := none }

/-- Success body carrying only a transcription. -/
def bodyHi : Body :=
  { transcription := some ("hi")
    response := some ("ok")
    intent := none
    item := none
    qty := none
    unit := none
    error := none }

/-- Failure body carrying a server error message. -/
def bodyErr : Body :=
  { transcription := none
    response := none
    intent := none
    item := none
    qty := none
    unit := none
    error := some ("boom") }

/-- Failure body with no error field. -/
def bodyNoErr : Body :=
  { transcription := none
    response := none
    intent := none
    item := none
    qty := none
    unit := none
    error := none }

/-- A start request never issues or retires a fetch: the pending-upload
count is untouched. -/
theorem startRecording_pending (c k : Bool) (w : World) :
    (startRecording c k w).pendingUploads = w.pendingUploads := by
  obtain ⟨rc, ir, ip, ai, tr, de, mh, nh, pu, fc⟩ := w
  cases ip <;> cases rc <;> cases c <;> cases k <;> rfl

/-- A start request never changes the isProcessing flag. -/
theorem startRecording_isProcessing (c k : Bool) (w : World) :
    (startRecording c k w).isProcessing = w.isProcessing := by
  obtain ⟨rc, ir, ip, ai, tr, de, mh, nh, pu, fc⟩ := w
  cases ip <;> cases rc <;> cases c <;> cases k <;> rfl

/-- The finally clause of uploadAudio always clears isProcessing. -/
theorem uploadAudioFinish_isProcessing (r : FetchResult) (w : World) :
    (uploadAudioFinish r w).isProcessing = false := rfl

/-- The continuation of uploadAudio retires exactly the fetch whose result
it consumes. -/
theorem uploadAudioFinish_pending (r : FetchResult) (w : World) :
    (uploadAudioFinish r w).pendingUploads = w.pendingUploads - 1 := by
  rcases r with _ | ⟨ok, b⟩
  · rfl
  · cases ok <;> cases b <;> try rfl
    unfold uploadAudioFinish
    dsimp only
    split <;> rfl

/-- The mount effect captured a null recording, so the unmount cleanup is
an unconditional no-op on every state. -/
theorem unmountCleanup_noop (s : Bool) (w : World) :
    unmountCleanup mountCapturedRecording s w = w := rfl

/-- The loop invariant holds initially. -/
theorem loopInv_init : LoopInv initWorld := ⟨rfl, fun _ => rfl⟩

/-- The loop invariant is preserved by a press gesture. -/
theorem loopInv_start (c k : Bool) (w : World) (h : LoopInv w) :
    LoopInv (startRecording c k w) := by
  constructor
  · rw [startRecording_pending, startRecording_isProcessing]
    exact h.1
  · intro hx
    rw [startRecording_isProcessing] at hx
    have he : startRecording c k w = w := by
      unfold startRecording
      rw [hx]
      simp
    rw [he]
    exact h.2 hx

/-- The loop invariant is preserved by a release gesture. -/
theorem loopInv_stop (s : Bool) (u : Option String) (w : World) (h : LoopInv w) :
    LoopInv (stopRecording s u w) := by
  obtain ⟨rc, ir, ip, ai, tr, de, mh, nh, pu, fc⟩ := w
  obtain ⟨h1, h2⟩ := h
  simp only [LoopInv] at h1 h2 ⊢
  cases rc <;> cases ip <;> cases s <;> cases hu : truthyS u <;>
    simp_all [stopRecording, uploadAudioStart]

/-- The loop invariant is preserved by the arrival of a fetch result. -/
theorem loopInv_finish (r : FetchResult) (w : World) (h : LoopInv w)
    (hp : 1 ≤ w.pendingUploads) : LoopInv (uploadAudioFinish r w) := by
  have hpu : w.pendingUploads = 1 := by
    rcases h with ⟨h1, h2⟩
    cases hip : w.isProcessing <;> rw [hip] at h1 <;> simp at h1 <;> omega
  constructor
  · rw [uploadAudioFinish_pending, uploadAudioFinish_isProcessing, hpu]
    rfl
  · intro hx
    rw [uploadAudioFinish_isProcessing] at hx
    exact Bool.noConfusion hx

/-- Every state reachable through the event loop satisfies the loop
invariant. -/
theorem reachable_loopInv (w : World) (h : Reachable w) : LoopInv w := by
  induction h with
  | init => exact loopInv_init
  | press c k hw ih => exact loopInv_start c k _ ih
  | release s u hw ih => exact loopInv_stop s u _ ih
  | arrive r hw hp ih => exact loopInv_finish r _ ih hp

/-- C1: evaluation of the unmount path at the failing input. After one
successful press from the initial state the mic resource is held, yet the
unmount cleanup, whose closure captured the mount-render recording value
null, leaves it held, and a repeated teardown leaves it held as well: the
resource a screen holds at unmount is never released. -/
theorem C1_unmount_cleanup_never_releases :
    recordingWorld.micHeld = true ∧
    (unmountCleanup mountCapturedRecording true recordingWorld).micHeld = true ∧
    (unmountCleanup mountCapturedRecording true
      (unmountCleanup mountCapturedRecording true recordingWorld)).micHeld = true :=
  ⟨rfl, rfl, rfl⟩

/-- C2 counterexample: a success body in which all four of intent, item,
qty and unit are present and non-null, but qty is zero, yields no
decision, because the code tests JavaScript truthiness rather than
presence. -/
theorem C2_counterexample :
    (bodyQtyZero.intent.isSome && bodyQtyZero.item.isSome &&
      bodyQtyZero.qty.isSome && bodyQtyZero.unit.isSome) = true ∧
    (uploadAudioFinish (FetchResult.resp true (some bodyQtyZero))
      (uploadAudioStart (some uriA) initWorld)).decision = none := by
  decide

/-- C2 amended: for a success response with a parsed body, from a state in
which no decision is displayed (which uploadAudio itself establishes
before the fetch), the resulting decision is non-null iff all four of
intent, item, qty and unit are truthy: present, non-null, non-empty for
the strings and non-zero for the quantity. -/
theorem C2_decision_iff_truthy (w : World) (b : Body) (h : w.decision = none) :
    (uploadAudioFinish (FetchResult.resp true (some b)) w).decision ≠ none ↔
      (truthyS b.intent && truthyS b.item && truthyN b.qty && truthyS b.unit) = true := by
  unfold uploadAudioFinish
  dsimp only
  split <;> simp_all

/-- C2 witness: the amended equivalence evaluated on a fully populated
body. -/
theorem C2_decision_iff_truthy_witness :
    (uploadAudioFinish (FetchResult.resp true (some bodyFull)) initWorld).decision ≠ none ↔
      (truthyS bodyFull.intent && truthyS bodyFull.item &&
        truthyN bodyFull.qty && truthyS bodyFull.unit) = true :=
  C2_decision_iff_truthy initWorld bodyFull rfl

/-- C3 counterexample: from a state that is already Recording and not
processing, a second start request is not a no-op: the existing session is
torn down and a brand new recording with a fresh handle is created. -/
theorem C3_counterexample :
    recordingWorld.isRecording = true ∧
    recordingWorld.isProcessing = false ∧
    recordingWorld.recording = some 0 ∧
    (startRecording true true recordingWorld).recording = some 1 := by
  decide

/-- C3 amended: the only guard in startRecording is isProcessing: a start
request received while an upload is in flight is a complete no-op, while a
start received when merely Recording tears the current session down and
creates a fresh recording. -/
theorem C3_start_noop_while_processing (c k : Bool) (w : World)
    (h : w.isProcessing = true) : startRecording c k w = w := by
  unfold startRecording
  rw [h]
  simp

/-- C3 witness: a start request arriving while an upload is pending leaves
the state untouched. -/
theorem C3_start_noop_while_processing_witness :
    startRecording true true processingWorld = processingWorld :=
  C3_start_noop_while_processing true true processingWorld rfl

/-- C4 counterexample: uploadAudio contains no pending-upload guard:
invoked directly with a fresh truthy uri while one upload is already
pending, it issues a second request instead of rejecting the call. -/
theorem C4_counterexample :
    processingWorld.pendingUploads = 1 ∧
    (uploadAudioStart (some uriB) processingWorld).pendingUploads = 2 := by
  decide

/-- C4 amended: in every state reachable through the gesture-driven event
loop at most one upload is in flight; the exclusion is enforced by the
isProcessing guard in startRecording together with the disabled button,
not by a rejection inside uploadAudio. -/
theorem C4_at_most_one_upload (w : World) (h : Reachable w) :
    w.pendingUploads ≤ 1 := by
  have hinv := reachable_loopInv w h
  rw [hinv.1]
  split <;> omega

/-- C4 witness: the bound evaluated at the reachable state with an upload
in flight. -/
theorem C4_at_most_one_upload_witness : processingWorld.pendingUploads ≤ 1 :=
  C4_at_most_one_upload processingWorld
    (Reachable.release true (some uriA) (Reachable.press true true Reachable.init))

/-- C5 counterexample: with permission denied the create call fails, and
the start request ends with the generic mic-error text on the display,
which is not the permission notice the mount alert uses. -/
theorem C5_counterexample :
    (startRecording true false initWorld).aiResponse = "❌ Mic Error. Try again." ∧
    "❌ Mic Error. Try again." ≠ permissionNotice := by
  decide

/-- C5 amended: when the create call fails, as it does while permission is
denied, a start request from Idle ends back in Idle: no recording handle,
no held resource, not processing, and the display shows the generic
mic-error message rather than a permission notice; the permission notice
itself is shown only once, as an alert at mount. -/
theorem C5_denied_start_idle (c : Bool) (w : World)
    (h1 : w.isProcessing = false) (h2 : w.recording = none) (h3 : w.micHeld = false) :
    (startRecording c false w).recording = none ∧
    (startRecording c false w).isRecording = false ∧
    (startRecording c false w).micHeld = false ∧
    (startRecording c false w).isProcessing = false ∧
    (startRecording c false w).aiResponse = "❌ Mic Error. Try again." := by
  simp [startRecording, cleanupAudio, h1, h2, h3]

/-- C5 witness: the amended conclusion evaluated at the initial state. -/
theorem C5_denied_start_idle_witness :
    (startRecording true false initWorld).recording = none ∧
    (startRecording true false initWorld).isRecording = false ∧
    (startRecording true false initWorld).micHeld = false ∧
    (startRecording true false initWorld).isProcessing = false ∧
    (startRecording true false initWorld).aiResponse = "❌ Mic Error. Try again." :=
  C5_denied_start_idle true initWorld rfl rfl rfl

/-- C6: in every run of stopRecording, an upload is issued only after the
hardware stop call has completed: the event trace never contains an
uploadIssued that is not preceded by a stopDone. -/
theorem C6_upload_after_stop (stopOk : Bool) (uri : Option String) (w : World) :
    uploadsAfterStop false (stopTrace stopOk uri w) = true := by
  obtain ⟨rc, ir, ip, ai, tr, de, mh, nh, pu, fc⟩ := w
  cases rc <;> cases stopOk <;> cases hu : truthyS uri <;>
    simp_all [stopTrace, uploadsAfterStop]

/-- C7 counterexample: the body transcription is not copied verbatim: the
template literal wraps it in double quote characters. -/
theorem C7_counterexample :
    (uploadAudioFinish (FetchResult.resp true (some bodyHi)) initWorld).transcription =
      "\"hi\"" ∧
    "\"hi\"" ≠ "hi" := by
  decide

/-- C7 amended: on HTTP success with a parsed body, the displayed
transcription is the body transcription wrapped in double quotes when the
field is truthy (an em dash otherwise), while the displayed response text
is the body response field copied verbatim when truthy (a generic text
otherwise). -/
theorem C7_display_mapping (w : World) (b : Body) (t s : String)
    (ht : b.transcription = some t) (hte : (t == "") = false)
    (hs : b.response = some s) (hse : (s == "") = false) :
    (uploadAudioFinish (FetchResult.resp true (some b)) w).transcription =
      "\"" ++ t ++ "\"" ∧
    (uploadAudioFinish (FetchResult.resp true (some b)) w).aiResponse = s := by
  unfold uploadAudioFinish
  dsimp only
  constructor
  · split <;> simp [ht, hte]
  · split <;> simp [hs, hse]

/-- C7 witness: the display mapping evaluated on a fully populated
body. -/
theorem C7_display_mapping_witness :
    (uploadAudioFinish (FetchResult.resp true (some bodyFull)) initWorld).transcription =
      "\"" ++ "add five kg rice" ++ "\"" ∧
    (uploadAudioFinish (FetchResult.resp true (some bodyFull)) initWorld).aiResponse =
      "Added 5 kg Rice" :=
  C7_display_mapping initWorld bodyFull "add five kg rice" "Added 5 kg Rice"
    rfl (by decide) rfl (by decide)

/-- C8 counterexample: on HTTP non-success the displayed text is not the
server-supplied message itself but that message prefixed with an error
marker. -/
theorem C8_counterexample :
    (uploadAudioFinish (FetchResult.resp false (some bodyErr)) initWorld).aiResponse =
      "❌ Error: boom" ∧
    "❌ Error: boom" ≠ "boom" := by
  decide

/-- C8 amended: on HTTP non-success with a parsed body the displayed text
is the error marker followed by the server error message when that field
is truthy and by the generic text otherwise, and the finally clause clears
isProcessing so the machine is back in Idle. -/
theorem C8_server_error (w : World) (b bn : Body) (e : String)
    (he : b.error = some e) (hee : (e == "") = false) (hn : bn.error = none) :
    (uploadAudioFinish (FetchResult.resp false (some b)) w).aiResponse =
      "❌ Error: " ++ e ∧
    (uploadAudioFinish (FetchResult.resp false (some bn)) w).aiResponse =
      "❌ Error: " ++ "Unknown error" ∧
    (uploadAudioFinish (FetchResult.resp false (some b)) w).isProcessing = false := by
  refine ⟨?_, ?_, rfl⟩
  · unfold uploadAudioFinish
    dsimp only
    simp [he, hee]
  · unfold uploadAudioFinish
    dsimp only
    simp [hn]

/-- C8 witness: the non-success mapping evaluated on a body with a server
message and on a body without one. -/
theorem C8_server_error_witness :
    (uploadAudioFinish (FetchResult.resp false (some bodyErr)) initWorld).aiResponse =
      "❌ Error: " ++ "boom" ∧
    (uploadAudioFinish (FetchResult.resp false (some bodyNoErr)) initWorld).aiResponse =
      "❌ Error: " ++ "Unknown error" ∧
    (uploadAudioFinish (FetchResult.resp false (some bodyErr)) initWorld).isProcessing =
      false :=
  C8_server_error initWorld bodyErr bodyNoErr "boom" rfl (by decide) rfl

/-- C9: a null artifact uri makes uploadAudio a complete no-op: the state,
including the display fields, isProcessing and the count of issued
requests, is exactly unchanged. -/
theorem C9_null_uri_noop (w : World) : uploadAudioStart none w = w := by
  simp [uploadAudioStart, truthyS]

/-- C10: when the hardware stop call throws, stopRecording clears the
recording handle and nothing else: no upload is attempted and the
displayed response text, transcription and decision are untouched. -/
theorem C10_stop_throw (uri : Option String) (w : World) (n : Nat)
    (h : w.recording = some n) :
    stopRecording false uri w = { w with isRecording := false, recording := none } := by
  unfold stopRecording
  rw [h]
  rfl

/-- C10 witness: the throw branch evaluated at the recording state. -/
theorem C10_stop_throw_witness :
    stopRecording false none recordingWorld =
      { recordingWorld with isRecording := false, recording := none } :=
  C10_stop_throw none recordingWorld 0 rfl
